import Mathlib

/-
Verification of the Claude-flow parallel task-execution engine
(`WebUI/backend/app/claude_flow/parallel_processor.py` together with the data
model in `WebUI/backend/app/models/schemas.py`).

The Python code is shallowly embedded: enumerations become inductive types,
the mutable `SubAgentTaskModel` / `SessionContext` objects become records that
are threaded explicitly, and each external interaction of `_execute_task`
(registry lookup, agent execution, progress callback) is resolved by an
explicit per-invocation environment.  Timestamps and per-worker statistics
are omitted because no property below observes them.

Logging is modelled as committed: the module replaces structlog with
`logging.getLogger(__name__)` (`# import structlog  # temporary disable`,
line 19) but keeps structlog-style keyword arguments at every call site.
Under the default stdlib configuration nothing in the app path configures
levels, so `logger.info(...)` calls are no-ops — the level check fails
before `_log` sees the keywords, although their *argument* expressions are
still evaluated first (which is where the empty-batch division lives) —
while `logger.warn(...)`/`logger.error(...)` calls with keyword arguments
pass the level check and raise `TypeError` from `Logger._log`.  The model
records these raises explicitly (`escaped` fields, the `timeoutRaise` loop
exit): they fire *after* the surrounding mutations, which therefore remain
observable.
-/

set_option linter.unusedVariables false

namespace ClaudeFlow

/-- `StatusEnum` from `app/models/schemas.py` (lines 20-26): the processing
states of a task. -/
inductive StatusEnum where
  | pending
  | running
  | completed
  | failed
  | cancelled
deriving DecidableEq, Repr

/-- `PriorityEnum` from `app/models/schemas.py` (lines 37-42). -/
inductive PriorityEnum where
  | low
  | normal
  | high
  | critical
deriving DecidableEq, Repr

/-- The integer value of each `PriorityEnum` member: LOW = 1, NORMAL = 5,
HIGH = 8, CRITICAL = 10 (schemas.py lines 39-42). -/
def PriorityEnum.value : PriorityEnum → Nat
  | .low => 1
  | .normal => 5
  | .high => 8
  | .critical => 10

/-- The fields of `SubAgentTaskModel` (schemas.py lines 461-484) that the
engine reads or mutates.  `task_id` stands for the UUID; timestamps are
omitted (no claim observes them). -/
structure SubAgentTaskModel where
  task_id : Nat
  agent_name : String
  priority : PriorityEnum
  status : StatusEnum
  output_data : Option String
  error_message : Option String
deriving DecidableEq, Repr

/- ===================================================================
   C1 — the counting semaphore bounding concurrent `_execute_task` bodies.

   `ParallelProcessor.__init__` (parallel_processor.py lines 107-129) creates
   `self.semaphore = Semaphore(self.max_workers)`, and `_execute_task`
   (lines 207-218) runs its whole body inside `async with self.semaphore`.
   The state records the semaphore counter and how many task executions are
   currently inside the guarded section.
   =================================================================== -/

/-- State of the engine's `asyncio.Semaphore` together with the number of
tasks currently inside the `async with self.semaphore` section of
`_execute_task`. -/
structure SemaphoreState where
  value : Nat
  inCritical : Nat
deriving DecidableEq, Repr

/-- Initial state: the semaphore is created with counter `maxWorkers`
(parallel_processor.py line 113) and no task is executing. -/
def SemaphoreState.init (maxWorkers : Nat) : SemaphoreState :=
  ⟨maxWorkers, 0⟩

/-- The two semaphore events of `async with self.semaphore`: an acquire
completes only while the counter is positive (decrementing it as a task
enters the guarded section), and a release (a task leaving the section)
increments it back. -/
inductive SemStep : SemaphoreState → SemaphoreState → Prop where
  | acquire (s : SemaphoreState) (h : 0 < s.value) :
      SemStep s ⟨s.value - 1, s.inCritical + 1⟩
  | release (s : SemaphoreState) (h : 0 < s.inCritical) :
      SemStep s ⟨s.value + 1, s.inCritical - 1⟩

/-- Engine states reachable from a fresh `ParallelProcessor` with
`max_workers = maxWorkers`. -/
inductive SemReachable (maxWorkers : Nat) : SemaphoreState → Prop where
  | init : SemReachable maxWorkers (SemaphoreState.init maxWorkers)
  | step {s s' : SemaphoreState} :
      SemReachable maxWorkers s → SemStep s s' → SemReachable maxWorkers s'

theorem semaphore_value_inv {n : Nat} {s : SemaphoreState}
    (h : SemReachable n s) : s.value + s.inCritical = n := by
  induction h with
  | init => simp [SemaphoreState.init]
  | step _ hstep ih =>
      cases hstep with
      | acquire hv => simp only at ih ⊢; omega
      | release hc => simp only at ih ⊢; omega

/- ===================================================================
   C5 — priority-ordered enqueueing.

   `execute_agents_parallel` (parallel_processor.py lines 351-357) runs
   `sorted_tasks = sorted(tasks, key=lambda t: t.priority.value, reverse=True)`
   and then enqueues each task in that order after setting its status to
   PENDING.  Python's `sorted` is stable, and with `reverse=True` equal keys
   keep their original order; the insertion sort below realizes exactly that:
   a task is inserted in front of the first already-placed task whose
   priority value is `≤` its own, and the already-placed tasks all come later
   in submission order.
   =================================================================== -/

/-- Insert `t` into `l` in front of the first element whose priority value is
not larger than `t`'s. -/
def insertByPriorityDesc (t : SubAgentTaskModel) :
    List SubAgentTaskModel → List SubAgentTaskModel
  | [] => [t]
  | u :: us =>
    if u.priority.value ≤ t.priority.value then t :: u :: us
    else u :: insertByPriorityDesc t us

/-- Embedding of `sorted(tasks, key=lambda t: t.priority.value, reverse=True)`
(parallel_processor.py line 352): a stable sort by descending priority
value. -/
def sortedByPriorityDesc (ts : List SubAgentTaskModel) : List SubAgentTaskModel :=
  ts.foldr insertByPriorityDesc []

/-- Lines 355-357: each task of the sorted batch has its status set to
PENDING and is put on the FIFO `task_queue`, in sorted order. -/
def enqueueBatch (ts : List SubAgentTaskModel) : List SubAgentTaskModel :=
  (sortedByPriorityDesc ts).map (fun t => { t with status := StatusEnum.pending })

/-- A single worker dequeues from the FIFO `task_queue` one item at a time
(`_worker_loop`, lines 169-199), so on an otherwise-idle single-worker engine
the dispatch order is the queue order. -/
def singleWorkerDispatchOrder (queue : List SubAgentTaskModel) :
    List SubAgentTaskModel :=
  queue

theorem mem_insertByPriorityDesc {a t : SubAgentTaskModel}
    {l : List SubAgentTaskModel} :
    a ∈ insertByPriorityDesc t l ↔ a = t ∨ a ∈ l := by
  induction l with
  | nil => simp [insertByPriorityDesc]
  | cons u us ih =>
      simp only [insertByPriorityDesc]
      by_cases h : u.priority.value ≤ t.priority.value
      · simp only [h, if_true, List.mem_cons]
      · simp only [h, if_false, List.mem_cons, ih]
        tauto

theorem perm_insertByPriorityDesc (t : SubAgentTaskModel)
    (l : List SubAgentTaskModel) :
    (insertByPriorityDesc t l).Perm (t :: l) := by
  induction l with
  | nil => simp [insertByPriorityDesc]
  | cons u us ih =>
      by_cases h : u.priority.value ≤ t.priority.value
      · simp [insertByPriorityDesc, h]
      · simp only [insertByPriorityDesc, h, if_false]
        exact ((ih.cons u).trans (List.Perm.swap t u us))

theorem pairwise_insertByPriorityDesc {t : SubAgentTaskModel}
    {l : List SubAgentTaskModel}
    (hl : l.Pairwise (fun a b => b.priority.value ≤ a.priority.value)) :
    (insertByPriorityDesc t l).Pairwise
      (fun a b => b.priority.value ≤ a.priority.value) := by
  induction l with
  | nil => simp [insertByPriorityDesc]
  | cons u us ih =>
      rcases List.pairwise_cons.mp hl with ⟨hu, hus⟩
      by_cases h : u.priority.value ≤ t.priority.value
      · simp only [insertByPriorityDesc, h, if_true]
        refine List.pairwise_cons.mpr ⟨?_, hl⟩
        intro b hb
        rcases List.mem_cons.mp hb with hb | hb
        · subst hb; exact h
        · exact le_trans (hu b hb) h
      · simp only [insertByPriorityDesc, h, if_false]
        refine List.pairwise_cons.mpr ⟨?_, ih hus⟩
        intro b hb
        rcases mem_insertByPriorityDesc.mp hb with hb | hb
        · subst hb; exact le_of_lt (Nat.lt_of_not_le h)
        · exact hu b hb

theorem perm_sortedByPriorityDesc (ts : List SubAgentTaskModel) :
    (sortedByPriorityDesc ts).Perm ts := by
  induction ts with
  | nil => simp [sortedByPriorityDesc]
  | cons t ts ih =>
      exact ((perm_insertByPriorityDesc t (sortedByPriorityDesc ts)).trans
        (ih.cons t))

theorem pairwise_sortedByPriorityDesc (ts : List SubAgentTaskModel) :
    (sortedByPriorityDesc ts).Pairwise
      (fun a b => b.priority.value ≤ a.priority.value) := by
  induction ts with
  | nil => simp [sortedByPriorityDesc]
  | cons t ts ih => exact pairwise_insertByPriorityDesc ih

theorem PriorityEnum.value_inj :
    ∀ p q : PriorityEnum, p.value = q.value → p = q := by
  intro p q h
  cases p <;> cases q <;> first
    | rfl
    | (simp [PriorityEnum.value] at h)

theorem filter_insertByPriorityDesc_ne {t : SubAgentTaskModel}
    {p : PriorityEnum} (hne : t.priority ≠ p) (l : List SubAgentTaskModel) :
    (insertByPriorityDesc t l).filter (fun u => decide (u.priority = p)) =
      l.filter (fun u => decide (u.priority = p)) := by
  induction l with
  | nil => simp [insertByPriorityDesc, hne]
  | cons u us ih =>
      by_cases h : u.priority.value ≤ t.priority.value
      · simp [insertByPriorityDesc, h, hne]
      · simp only [insertByPriorityDesc, h, if_false]
        by_cases hu : u.priority = p
        · simp [List.filter_cons, hu, ih]
        · simp [List.filter_cons, hu, ih]

theorem filter_insertByPriorityDesc_eq {t : SubAgentTaskModel}
    {p : PriorityEnum} (heq : t.priority = p) {l : List SubAgentTaskModel}
    (hl : l.Pairwise (fun a b => b.priority.value ≤ a.priority.value)) :
    (insertByPriorityDesc t l).filter (fun u => decide (u.priority = p)) =
      t :: l.filter (fun u => decide (u.priority = p)) := by
  induction l with
  | nil => simp [insertByPriorityDesc, heq]
  | cons u us ih =>
      rcases List.pairwise_cons.mp hl with ⟨hu, hus⟩
      by_cases h : u.priority.value ≤ t.priority.value
      · simp only [insertByPriorityDesc, h, if_true]
        simp [List.filter_cons, heq]
      · have hult : t.priority.value < u.priority.value := Nat.lt_of_not_le h
        have hune : u.priority ≠ p := by
          intro hup
          have : u.priority.value = t.priority.value := by
            rw [hup, heq]
          omega
        simp only [insertByPriorityDesc, h, if_false]
        simp [List.filter_cons, hune, ih hus]

theorem filter_sortedByPriorityDesc (ts : List SubAgentTaskModel)
    (p : PriorityEnum) :
    (sortedByPriorityDesc ts).filter (fun u => decide (u.priority = p)) =
      ts.filter (fun u => decide (u.priority = p)) := by
  induction ts with
  | nil => simp [sortedByPriorityDesc]
  | cons t ts ih =>
      show (insertByPriorityDesc t (sortedByPriorityDesc ts)).filter _ = _
      by_cases h : t.priority = p
      · rw [filter_insertByPriorityDesc_eq h (pairwise_sortedByPriorityDesc ts)]
        simp [List.filter_cons, h, ih]
      · rw [filter_insertByPriorityDesc_ne h]
        simp [List.filter_cons, h, ih]

/-- A convenient concrete task constructor used by the scenario claims. -/
def mkTask (tid : Nat) (p : PriorityEnum) : SubAgentTaskModel :=
  ⟨tid, "agent", p, StatusEnum.pending, none, none⟩

/-- The three-task batch of the C5 scenario, in submission order
LOW, CRITICAL, NORMAL. -/
def c5Batch : List SubAgentTaskModel :=
  [mkTask 0 PriorityEnum.low, mkTask 1 PriorityEnum.critical,
   mkTask 2 PriorityEnum.normal]

/- ===================================================================
   The `_execute_task` body (parallel_processor.py lines 207-310).

   The body runs inside the semaphore section modelled above.  Its external
   interactions are resolved by a per-invocation environment:
   whether `session_id in self.active_sessions` holds, what `get_agent`
   returns together with how `agent_instance.execute` behaves, and how the
   session's progress callback behaves.  The session lists store task ids,
   mirrorring that Python appends references to the very task object that is
   mutated afterwards.
   =================================================================== -/

/-- The terminal statuses an `AgentResult` carries when `execute` returns:
`base_agent.py` sets COMPLETED (line 128), FAILED (lines 137, 147, 166) or
CANCELLED (line 156) on every return path. -/
inductive AgentResultStatus where
  | completed
  | failed
  | cancelled
deriving DecidableEq, Repr

/-- `StatusEnum(result.status.value)` (parallel_processor.py line 256). -/
def AgentResultStatus.toStatusEnum : AgentResultStatus → StatusEnum
  | .completed => StatusEnum.completed
  | .failed => StatusEnum.failed
  | .cancelled => StatusEnum.cancelled

/-- The fields of an `AgentResult` that `_execute_task` copies onto the task
(lines 256-260); timestamps omitted. -/
structure AgentResult where
  status : AgentResultStatus
  output_data : Option String
  error_message : Option String
deriving DecidableEq, Repr

/-- Behaviour of one `agent_instance.execute` call (line 249): it either
returns an `AgentResult` or raises an exception with a message. -/
inductive AgentOutcome where
  | result (r : AgentResult)
  | raises (msg : String)
deriving DecidableEq, Repr

/-- Behaviour of `session_context.progress_callback` for one invocation
(lines 271-272): absent (`None`), returning normally, or raising. -/
inductive CallbackBehavior where
  | absent
  | ok
  | raises (msg : String)
deriving DecidableEq, Repr

/-- Whether the callback raises. -/
def CallbackBehavior.doesRaise : CallbackBehavior → Bool
  | .raises _ => true
  | _ => false

/-- Per-invocation environment for `_execute_task`: whether the session id is
in `self.active_sessions`, the combined result of `get_agent` plus the
agent's execution (`none` models a registry miss), and the progress-callback
behaviour. -/
structure TaskEnv where
  sessionFound : Bool
  agentLookup : Option AgentOutcome
  callback : CallbackBehavior
deriving DecidableEq, Repr

/-- The `SessionContext` fields `_execute_task` reads and mutates
(parallel_processor.py lines 73-83): the completed and failed lists (of task
ids) and the cancellation flag. -/
structure SessionContext where
  completed_tasks : List Nat
  failed_tasks : List Nat
  is_cancelled : Bool
deriving DecidableEq, Repr

/-- A fresh session context (lines 334-339). -/
def emptySession : SessionContext := ⟨[], [], false⟩

/-- `cancel_session` (lines 429-438): sets the session's cancelled flag. -/
def cancelSession (sess : SessionContext) : SessionContext :=
  { sess with is_cancelled := true }

/-- Message of the `ValueError` raised at line 231 when the session id is not
in `active_sessions` (the session id itself is kept opaque). -/
def sessionNotFoundMsg : String := "セッション が見つかりません"

/-- Message of the `ValueError` raised at line 243 when `get_agent` returned
no agent class. -/
def agentNotFoundMsg (agentName : String) : String :=
  "エージェント " ++ agentName ++ " が見つかりません"

/-- Message of the `TypeError` that `Logger._log` raises when a logging call
passes structlog-style keyword arguments to the committed stdlib logger. -/
def loggerKwargsTypeErrorMsg : String :=
  "TypeError: unexpected keyword argument passed to Logger._log"

/-- Outcome of one whole `_execute_task` invocation: the task and session
after every mutation, plus the exception (if any) that escapes
`_execute_task` itself.  Under the committed stdlib logger the `except`
handler's structlog-style `logger.error` (line 301) raises `TypeError`
*after* the handler's mutations, so on every exception path the mutations
are observable and `escaped` is set. -/
structure TaskStepResult where
  task : SubAgentTaskModel
  sess : SessionContext
  escaped : Option String
deriving DecidableEq, Repr

/-- Outcome of a single worker draining its queue: the task objects (mutated
up to the point the worker died, unmodified afterwards), the final session,
and whether the worker loop is still alive. -/
structure WorkerRunResult where
  tasks : List SubAgentTaskModel
  sess : SessionContext
  workerAlive : Bool
deriving DecidableEq, Repr

/-- The `try` block of `_execute_task` (lines 221-283).  `Except.error`
carries the exception message together with the task and session exactly as
mutated up to the raise; `Except.ok` is normal fall-through.  The guards
appear in source order: session check (line 230), cancellation check
(line 236), registry lookup (lines 241-243), agent execution (line 249),
result copy (lines 256-260), session accounting (lines 262-268), progress
callback (lines 270-272). -/
def executeTaskTry (env : TaskEnv) (tid : Nat) (task : SubAgentTaskModel)
    (sess : SessionContext) :
    Except (String × SubAgentTaskModel × SessionContext)
      (SubAgentTaskModel × SessionContext) :=
  match env.sessionFound, sess.is_cancelled, env.agentLookup with
  | false, _, _ => Except.error (sessionNotFoundMsg, task, sess)
  | true, true, _ => Except.ok ({ task with status := StatusEnum.cancelled }, sess)
  | true, false, none =>
      Except.error (agentNotFoundMsg task.agent_name, task, sess)
  | true, false, some (AgentOutcome.raises msg) =>
      Except.error (msg, task, sess)
  | true, false, some (AgentOutcome.result r) =>
      let task1 : SubAgentTaskModel :=
        { task with
            status := r.status.toStatusEnum
            output_data := r.output_data
            error_message := r.error_message }
      let sess1 : SessionContext :=
        if r.status = AgentResultStatus.completed then
          { sess with completed_tasks := sess.completed_tasks ++ [tid] }
        else
          { sess with failed_tasks := sess.failed_tasks ++ [tid] }
      match env.callback with
      | CallbackBehavior.raises msg => Except.error (msg, task1, sess1)
      | _ => Except.ok (task1, sess1)

/-- The `except Exception` handler of `_execute_task` (lines 285-307): the
task's status is overwritten to FAILED, the exception message is recorded,
and — when the session is in `active_sessions` (line 298) — the task is
appended to the session's failed list; the handler's own `logger.error` call
with structlog-style keyword arguments (line 301) then raises `TypeError` on
the committed stdlib logger, which escapes `_execute_task` (the `finally`
only clears the worker's current-task field). -/
def handleTaskException (env : TaskEnv) (tid : Nat) (msg : String)
    (task : SubAgentTaskModel) (sess : SessionContext) : TaskStepResult :=
  let task1 : SubAgentTaskModel :=
    { task with status := StatusEnum.failed, error_message := some msg }
  if env.sessionFound then
    ⟨task1, { sess with failed_tasks := sess.failed_tasks ++ [tid] },
      some loggerKwargsTypeErrorMsg⟩
  else
    ⟨task1, sess, some loggerKwargsTypeErrorMsg⟩

/-- The whole of `_execute_task` (lines 207-310): the `try` block with every
exception caught by the handler.  On the normal paths (`escaped = none`) the
enabled logging calls are all `logger.info`, no-ops under the default
configuration, so nothing is raised; on every exception path the handler's
raising `logger.error` makes the invocation end by `TypeError` *after* its
accounting mutations. -/
def executeTask (env : TaskEnv) (tid : Nat) (task : SubAgentTaskModel)
    (sess : SessionContext) : TaskStepResult :=
  match executeTaskTry env tid task sess with
  | Except.ok (t, s) => ⟨t, s, none⟩
  | Except.error (msg, t, s) => handleTaskException env tid msg t s

/-- The successive values assigned to `task.status` during one
`_execute_task` invocation, in program order: line 289 for any caught
exception, line 237 for the cancellation short-circuit, line 256 for the
copied agent status, followed by line 289 again when the progress callback
then raises. -/
def executeTaskStatusTrace (env : TaskEnv) (sess : SessionContext) :
    List StatusEnum :=
  match env.sessionFound, sess.is_cancelled, env.agentLookup with
  | false, _, _ => [StatusEnum.failed]
  | true, true, _ => [StatusEnum.cancelled]
  | true, false, none => [StatusEnum.failed]
  | true, false, some (AgentOutcome.raises _) => [StatusEnum.failed]
  | true, false, some (AgentOutcome.result r) =>
      match env.callback with
      | CallbackBehavior.raises _ => [r.status.toStatusEnum, StatusEnum.failed]
      | _ => [r.status.toStatusEnum]

/-- A single worker draining the FIFO queue (worker loop, lines 169-199):
each dequeued task is run through `executeTask` with its own environment,
threading the session.  When `_execute_task` raises, the worker's `except`
(line 197) catches it, but line 198's own structlog-style `logger.error`
raises `TypeError`, which is not caught and terminates the worker loop — so
the remaining queued tasks are never dequeued and keep their enqueue-time
state. -/
def runTasks : List (SubAgentTaskModel × TaskEnv) → SessionContext →
    WorkerRunResult
  | [], sess => ⟨[], sess, true⟩
  | (t, env) :: rest, sess =>
      let out := executeTask env t.task_id t sess
      match out.escaped with
      | some _ => ⟨out.task :: rest.map (fun p => p.1), out.sess, false⟩
      | none =>
          let outRest := runTasks rest out.sess
          ⟨out.task :: outRest.tasks, outRest.sess, outRest.workerAlive⟩

/- ===================================================================
   The wait loop and the tail of `execute_agents_parallel`
   (parallel_processor.py lines 359-406).
   =================================================================== -/

/-- How an iteration of the wait loop ends: the completion and cancellation
checks `break` cleanly, but the timeout branch first runs
`logger.warn("並列実行タイムアウト", session_id=...)` (line 373), whose
structlog-style keyword arguments raise `TypeError` on the committed stdlib
logger before the `break` at line 379 is reached. -/
inductive LoopExitReason where
  | completion
  | timeoutRaise
  | cancelledExit
deriving DecidableEq, Repr

/-- One iteration of the wait loop (lines 364-387), with times in abstract
ticks: first the completion check `completed_count >= total_tasks`
(line 368), then the timeout check `time.time() - start_wait > timeout`
(line 372) — whose branch raises from its logging call, see
`LoopExitReason` — then the cancellation check (line 382); `none` means the
loop sleeps and polls again. -/
def waitLoopCheck (sess : SessionContext) (totalTasks elapsed timeout : Nat) :
    Option LoopExitReason :=
  let completedCount := sess.completed_tasks.length + sess.failed_tasks.length
  if totalTasks ≤ completedCount then some LoopExitReason.completion
  else if timeout < elapsed then some LoopExitReason.timeoutRaise
  else if sess.is_cancelled then some LoopExitReason.cancelledExit
  else none

/-- The code after the wait loop (lines 389-406): the `logger.info` call's
`success_rate` argument computes `(completed_tasks/total_tasks)*100` — the
arguments are evaluated before the (disabled-level) call, so this is a true
division that raises `ZeroDivisionError` when `total_tasks` is zero;
otherwise the call returns `completed_tasks + failed_tasks`. -/
def finishBatch (sess : SessionContext) (totalTasks : Nat) :
    Except String (List Nat) :=
  if totalTasks = 0 then Except.error "ZeroDivisionError"
  else Except.ok (sess.completed_tasks ++ sess.failed_tasks)

/-- The observable outcome of `execute_agents_parallel` once a poll of the
wait loop fires, as committed: a completion or cancellation `break` falls
through to `finishBatch`; on the timeout branch line 373's `logger.warn`
raises `TypeError`, and the `except` handler's own keyword-argument
`logger.error` (line 409) raises `TypeError` again, which propagates to the
caller — partial results are never returned on this path. -/
def awaitBatchResult (sess : SessionContext) (totalTasks elapsed timeout : Nat) :
    Option (Except String (List Nat)) :=
  match waitLoopCheck sess totalTasks elapsed timeout with
  | none => none
  | some LoopExitReason.completion => some (finishBatch sess totalTasks)
  | some LoopExitReason.cancelledExit => some (finishBatch sess totalTasks)
  | some LoopExitReason.timeoutRaise =>
      some (Except.error loggerKwargsTypeErrorMsg)

/- ===================================================================
   Shared scenario values and helper lemmas.
   =================================================================== -/

/-- An agent result reporting success. -/
def successResult : AgentResult :=
  ⟨AgentResultStatus.completed, some "ok", none⟩

/-- Environment in which the agent succeeds but the progress callback
raises. -/
def callbackBoomEnv : TaskEnv :=
  ⟨true, some (AgentOutcome.result successResult), CallbackBehavior.raises "boom"⟩

/-- Environment matching the module's own committed `get_agent` stub
(lines 29-31, always `None`): the registry lookup misses. -/
def stubLookupEnv : TaskEnv := ⟨true, none, CallbackBehavior.absent⟩

/-- Whether the dispatch itself raises inside the `try` block: a registry
miss (`ValueError`, line 243) or an exception from the agent's `execute`
call (line 249). -/
def TaskEnv.dispatchRaises : TaskEnv → Bool
  | ⟨_, none, _⟩ => true
  | ⟨_, some (AgentOutcome.raises _), _⟩ => true
  | ⟨_, some (AgentOutcome.result _), _⟩ => false

/-- Sanity lemma: the final status of the task returned by `executeTask` is
the last status assignment of the trace. -/
theorem executeTask_status_eq_trace_getLast (env : TaskEnv) (tid : Nat)
    (t : SubAgentTaskModel) (sess : SessionContext) :
    (executeTask env tid t sess).task.status =
      (executeTaskStatusTrace env sess).getLastD StatusEnum.pending := by
  obtain ⟨sf, al, cb⟩ := env
  cases sf <;> cases hc : sess.is_cancelled <;> rcases al with _ | (r | msg) <;>
    cases cb <;>
      simp [executeTask, executeTaskTry, handleTaskException,
        executeTaskStatusTrace, hc]

/-- Any id in the session lists after one `executeTask` was already there or
is the executed task's id. -/
theorem executeTask_ids_subset (env : TaskEnv) (tid : Nat)
    (t : SubAgentTaskModel) (sess : SessionContext) :
    ∀ x, (x ∈ (executeTask env tid t sess).sess.completed_tasks ∨
          x ∈ (executeTask env tid t sess).sess.failed_tasks) →
      (x ∈ sess.completed_tasks ∨ x ∈ sess.failed_tasks ∨ x = tid) := by
  obtain ⟨sf, al, cb⟩ := env
  cases sf <;> cases hc : sess.is_cancelled <;> rcases al with _ | (r | msg) <;>
    cases cb <;> intro x hx <;>
      first
        | (simp [executeTask, executeTaskTry, handleTaskException, hc] at hx;
           tauto)
        | (rcases hr : r.status <;>
            simp [executeTask, executeTaskTry, handleTaskException, hc, hr] at hx <;>
            tauto)

/- ===================================================================
   C1 — concurrency bound.
   =================================================================== -/

/-- C1: at no instant do more than `max_workers` task executions run inside
the semaphore-guarded section of `_execute_task`: in every engine state
reachable from a fresh `ParallelProcessor` with `max_workers = n`, the number
of tasks inside the section is at most `n`. -/
theorem concurrency_bound_max_workers (n : Nat) (s : SemaphoreState)
    (h : SemReachable n s) : s.inCritical ≤ n := by
  have hv := semaphore_value_inv h
  omega

/-- Witness for C1: with `max_workers = 4`, after one acquire the state
`⟨3, 1⟩` is reachable and satisfies the bound. -/
theorem concurrency_bound_max_workers_witness :
    (SemaphoreState.mk 3 1).inCritical ≤ 4 :=
  concurrency_bound_max_workers 4 ⟨3, 1⟩
    (SemReachable.step SemReachable.init
      (SemStep.acquire (SemaphoreState.init 4) (by decide)))

/- ===================================================================
   C5 — priority ordering.
   =================================================================== -/

/-- C5: `execute_agents_parallel` enqueues every batch sorted by descending
priority value with ties kept in submission order (the sorted list is a
permutation of the batch, pairwise descending, and preserves the relative
order of equal priorities), and for the batch [LOW, CRITICAL, NORMAL] on an
otherwise-idle single-worker engine the dispatch order is CRITICAL, NORMAL,
LOW. -/
theorem priority_sort_enqueue_order :
    (∀ ts : List SubAgentTaskModel,
        (sortedByPriorityDesc ts).Perm ts ∧
        (sortedByPriorityDesc ts).Pairwise
          (fun a b => b.priority.value ≤ a.priority.value) ∧
        ∀ p : PriorityEnum,
          (sortedByPriorityDesc ts).filter (fun u => decide (u.priority = p)) =
            ts.filter (fun u => decide (u.priority = p))) ∧
    (singleWorkerDispatchOrder (enqueueBatch c5Batch)).map
        (fun t => t.task_id) = [1, 2, 0] ∧
    (singleWorkerDispatchOrder (enqueueBatch c5Batch)).map
        (fun t => t.priority) =
      [PriorityEnum.critical, PriorityEnum.normal, PriorityEnum.low] := by
  refine ⟨fun ts => ⟨perm_sortedByPriorityDesc ts,
    pairwise_sortedByPriorityDesc ts, filter_sortedByPriorityDesc ts⟩, ?_, ?_⟩ <;>
    rfl

/- ===================================================================
   C7 — unknown agent.
   =================================================================== -/

/-- C7 (code bug): dispatching a task whose agent name has no registered
agent raises a `ValueError` inside the `try` block; the `except` handler
first completes the accounting the claim (and the spec's intent) describe —
status FAILED, the error message attached, the task appended to the
session's failed list (lines 288-299) — but the handler's own
`logger.error` call with structlog-style keyword arguments (line 301) then
raises `TypeError` on the committed stdlib logger.  That exception escapes
`_execute_task`, and the worker loop's identical keyword-argument
`logger.error` (line 198) re-raises while handling it, terminating the
worker — contradicting the claim's "no exception propagates out of the
worker loop". -/
theorem unknown_agent_failed_then_logger_raises (cb : CallbackBehavior)
    (tid : Nat) (t : SubAgentTaskModel) (sess : SessionContext)
    (hc : sess.is_cancelled = false) :
    executeTaskTry ⟨true, none, cb⟩ tid t sess =
      Except.error (agentNotFoundMsg t.agent_name, t, sess) ∧
    (executeTask ⟨true, none, cb⟩ tid t sess).task.status =
      StatusEnum.failed ∧
    (executeTask ⟨true, none, cb⟩ tid t sess).task.error_message =
      some (agentNotFoundMsg t.agent_name) ∧
    (executeTask ⟨true, none, cb⟩ tid t sess).sess.failed_tasks =
      sess.failed_tasks ++ [tid] ∧
    (executeTask ⟨true, none, cb⟩ tid t sess).sess.completed_tasks =
      sess.completed_tasks ∧
    (executeTask ⟨true, none, cb⟩ tid t sess).escaped =
      some loggerKwargsTypeErrorMsg ∧
    (runTasks [(t, ⟨true, none, cb⟩)] sess).workerAlive = false := by
  refine ⟨?_, ?_, ?_, ?_, ?_, ?_, ?_⟩ <;>
    simp [executeTask, executeTaskTry, handleTaskException, runTasks, hc]

/-- Witness for C7 at a concrete pending task on a fresh session. -/
theorem unknown_agent_failed_then_logger_raises_witness :
    (executeTask ⟨true, none, CallbackBehavior.absent⟩ 7
        (mkTask 7 PriorityEnum.normal) emptySession).task.status =
      StatusEnum.failed :=
  (unknown_agent_failed_then_logger_raises CallbackBehavior.absent 7
      (mkTask 7 PriorityEnum.normal) emptySession rfl).2.1

/- ===================================================================
   C3 — status transitions.
   =================================================================== -/

/-- The transition relation asserted by the claim: PENDING → RUNNING →
terminal, with PENDING → CANCELLED only for a task cancelled while still
pending. -/
def claimAllowedStatusStep : StatusEnum → StatusEnum → Bool
  | StatusEnum.pending, StatusEnum.running => true
  | StatusEnum.pending, StatusEnum.cancelled => true
  | StatusEnum.running, StatusEnum.completed => true
  | StatusEnum.running, StatusEnum.failed => true
  | StatusEnum.running, StatusEnum.cancelled => true
  | _, _ => false

/-- Whether each consecutive pair of a status history is an allowed step of
the claim's state machine. -/
def chainOk : List StatusEnum → Bool
  | [] => true
  | [_] => true
  | a :: b :: rest => claimAllowedStatusStep a b && chainOk (b :: rest)

/-- C3 counterexample: on a session that is *not* cancelled, a successfully
dispatched task moves PENDING → COMPLETED directly — `_execute_task` never
assigns RUNNING — so the status history of the claim's state machine is
violated. -/
theorem status_skips_running_cex :
    chainOk (StatusEnum.pending ::
        executeTaskStatusTrace
          ⟨true, some (AgentOutcome.result successResult), CallbackBehavior.ok⟩
          emptySession) = false ∧
    emptySession.is_cancelled = false := by
  decide

/-- Terminal statuses. -/
def isTerminalStatus : StatusEnum → Bool
  | StatusEnum.completed => true
  | StatusEnum.failed => true
  | StatusEnum.cancelled => true
  | _ => false

theorem isTerminal_toStatusEnum (s : AgentResultStatus) :
    isTerminalStatus s.toStatusEnum = true := by
  cases s <;> rfl

/-- C3 amended: `_execute_task` moves a task directly from PENDING to a
terminal status — RUNNING is never assigned; it assigns a status at least
once and at most twice, and a second assignment happens only when the
progress callback raises, overwriting the just-assigned terminal status with
FAILED. -/
theorem status_trace_terminal_only (env : TaskEnv) (sess : SessionContext) :
    (executeTaskStatusTrace env sess).all isTerminalStatus = true ∧
    0 < (executeTaskStatusTrace env sess).length ∧
    (executeTaskStatusTrace env sess).length ≤ 2 ∧
    ((executeTaskStatusTrace env sess).length = 2 →
      env.callback.doesRaise = true ∧
      (executeTaskStatusTrace env sess).getLastD StatusEnum.pending =
        StatusEnum.failed) := by
  obtain ⟨sf, al, cb⟩ := env
  cases sf <;> cases hc : sess.is_cancelled <;> rcases al with _ | (r | msg) <;>
    cases cb <;>
      simp [executeTaskStatusTrace, hc, isTerminal_toStatusEnum,
        CallbackBehavior.doesRaise, isTerminalStatus] <;>
        (try (cases r.status <;> rfl))

/-- Witness for C3 (amended) at a concrete environment. -/
theorem status_trace_terminal_only_witness :
    (executeTaskStatusTrace ⟨true, none, CallbackBehavior.absent⟩
        emptySession).all isTerminalStatus = true :=
  (status_trace_terminal_only ⟨true, none, CallbackBehavior.absent⟩
      emptySession).1

/- ===================================================================
   C4 — session list invariant.
   =================================================================== -/

/-- Current status of the task with id `tid` among the given task objects
(PENDING if absent). -/
def statusOfTask (tasks : List SubAgentTaskModel) (tid : Nat) : StatusEnum :=
  match tasks.find? (fun t => t.task_id == tid) with
  | some t => t.status
  | none => StatusEnum.pending

/-- Executable check of the claim's SessionContext invariant: every id in
the completed list has status COMPLETED, every id in the failed list has
status FAILED or CANCELLED, and the two lists are disjoint. -/
def sessionInvariantCheck (tasks : List SubAgentTaskModel)
    (sess : SessionContext) : Bool :=
  (sess.completed_tasks.all fun tid =>
    decide (statusOfTask tasks tid = StatusEnum.completed)) &&
  (sess.failed_tasks.all fun tid =>
    decide (statusOfTask tasks tid = StatusEnum.failed ∨
      statusOfTask tasks tid = StatusEnum.cancelled)) &&
  (sess.completed_tasks.all fun tid => !sess.failed_tasks.contains tid)

/-- C4 counterexample: one `_execute_task` on a fresh session, with a
succeeding agent and a raising progress callback, puts the task in *both*
lists and overwrites its status to FAILED, so the invariant fails on this
reachable state. -/
theorem session_lists_invariant_cex :
    sessionInvariantCheck
      [(executeTask callbackBoomEnv 0 (mkTask 0 PriorityEnum.normal)
          emptySession).task]
      (executeTask callbackBoomEnv 0 (mkTask 0 PriorityEnum.normal)
          emptySession).sess = false := by
  decide

/-- The claim's SessionContext invariant, relative to an assignment of
current statuses to task ids. -/
def sessionInvariant (statusOf : Nat → StatusEnum) (sess : SessionContext) :
    Prop :=
  (∀ tid ∈ sess.completed_tasks, statusOf tid = StatusEnum.completed) ∧
  (∀ tid ∈ sess.failed_tasks,
      statusOf tid = StatusEnum.failed ∨ statusOf tid = StatusEnum.cancelled) ∧
  (∀ tid ∈ sess.completed_tasks, tid ∉ sess.failed_tasks)

theorem sessionInvariant_untouched {statusOf : Nat → StatusEnum}
    {sess : SessionContext} (hinv : sessionInvariant statusOf sess)
    {tid : Nat} (hc : tid ∉ sess.completed_tasks)
    (hf : tid ∉ sess.failed_tasks) (st : StatusEnum) :
    sessionInvariant (Function.update statusOf tid st) sess := by
  obtain ⟨h1, h2, h3⟩ := hinv
  refine ⟨?_, ?_, h3⟩
  · intro x hx
    have hne : x ≠ tid := fun hxe => hc (hxe ▸ hx)
    rw [Function.update_noteq hne]
    exact h1 x hx
  · intro x hx
    have hne : x ≠ tid := fun hxe => hf (hxe ▸ hx)
    rw [Function.update_noteq hne]
    exact h2 x hx

theorem sessionInvariant_append_failed {statusOf : Nat → StatusEnum}
    {sess : SessionContext} (hinv : sessionInvariant statusOf sess)
    {tid : Nat} (hc : tid ∉ sess.completed_tasks)
    (hf : tid ∉ sess.failed_tasks) {st : StatusEnum}
    (hst : st = StatusEnum.failed ∨ st = StatusEnum.cancelled) :
    sessionInvariant (Function.update statusOf tid st)
      { sess with failed_tasks := sess.failed_tasks ++ [tid] } := by
  obtain ⟨h1, h2, h3⟩ := hinv
  refine ⟨?_, ?_, ?_⟩
  · intro x hx
    have hne : x ≠ tid := fun hxe => hc (hxe ▸ hx)
    rw [Function.update_noteq hne]
    exact h1 x hx
  · intro x hx
    rcases List.mem_append.mp hx with hx | hx
    · have hne : x ≠ tid := fun hxe => hf (hxe ▸ hx)
      rw [Function.update_noteq hne]
      exact h2 x hx
    · rcases List.mem_singleton.mp hx with rfl
      rw [Function.update_same]
      exact hst
  · intro x hx
    simp only [List.mem_append, List.mem_singleton]
    rintro (hx2 | rfl)
    · exact h3 x hx hx2
    · exact hc hx

theorem sessionInvariant_append_completed {statusOf : Nat → StatusEnum}
    {sess : SessionContext} (hinv : sessionInvariant statusOf sess)
    {tid : Nat} (hc : tid ∉ sess.completed_tasks)
    (hf : tid ∉ sess.failed_tasks) :
    sessionInvariant (Function.update statusOf tid StatusEnum.completed)
      { sess with completed_tasks := sess.completed_tasks ++ [tid] } := by
  obtain ⟨h1, h2, h3⟩ := hinv
  refine ⟨?_, ?_, ?_⟩
  · intro x hx
    rcases List.mem_append.mp hx with hx | hx
    · have hne : x ≠ tid := fun hxe => hc (hxe ▸ hx)
      rw [Function.update_noteq hne]
      exact h1 x hx
    · rcases List.mem_singleton.mp hx with rfl
      rw [Function.update_same]
  · intro x hx
    have hne : x ≠ tid := fun hxe => hf (hxe ▸ hx)
    rw [Function.update_noteq hne]
    exact h2 x hx
  · intro x hx
    rcases List.mem_append.mp hx with hx | hx
    · exact h3 x hx
    · rcases List.mem_singleton.mp hx with rfl
      exact hf

/-- C4 amended: every execution path of `_execute_task` preserves the
session list invariant *provided the progress callback does not raise*
(a raising callback is the sole violation, per the counterexample), the
executed task's id being fresh for the session. -/
theorem session_lists_invariant_preserved (env : TaskEnv) (tid : Nat)
    (t : SubAgentTaskModel) (sess : SessionContext)
    (statusOf : Nat → StatusEnum)
    (hinv : sessionInvariant statusOf sess)
    (hcb : env.callback.doesRaise = false)
    (hc : tid ∉ sess.completed_tasks) (hf : tid ∉ sess.failed_tasks) :
    sessionInvariant
      (Function.update statusOf tid (executeTask env tid t sess).task.status)
      (executeTask env tid t sess).sess := by
  obtain ⟨sf, al, cb⟩ := env
  simp only [CallbackBehavior.doesRaise] at hcb
  cases sf <;> cases hcanc : sess.is_cancelled <;>
    rcases al with _ | (r | msg) <;> cases cb <;>
      simp_all only [executeTask, executeTaskTry, handleTaskException] <;>
        first
          | exact sessionInvariant_untouched hinv hc hf _
          | exact sessionInvariant_append_failed hinv hc hf (Or.inl rfl)
          | (rcases hr : r.status <;>
              simp only [hr, AgentResultStatus.toStatusEnum, if_true, if_false,
                reduceCtorEq, reduceIte] <;>
              first
                | exact sessionInvariant_append_completed hinv hc hf
                | exact sessionInvariant_append_failed hinv hc hf (Or.inl rfl)
                | exact sessionInvariant_append_failed hinv hc hf (Or.inr rfl))

/-- Witness for C4 (amended) at a concrete fresh session and environment. -/
theorem session_lists_invariant_preserved_witness :
    sessionInvariant
      (Function.update (fun _ => StatusEnum.pending) 0
        (executeTask ⟨true, none, CallbackBehavior.absent⟩ 0
          (mkTask 0 PriorityEnum.normal) emptySession).task.status)
      (executeTask ⟨true, none, CallbackBehavior.absent⟩ 0
        (mkTask 0 PriorityEnum.normal) emptySession).sess :=
  session_lists_invariant_preserved ⟨true, none, CallbackBehavior.absent⟩ 0
    (mkTask 0 PriorityEnum.normal) emptySession (fun _ => StatusEnum.pending)
    (by simp [sessionInvariant, emptySession]) rfl
    (by simp [emptySession]) (by simp [emptySession])

/- ===================================================================
   C6 — progress-callback failure and accounting.
   =================================================================== -/

/-- Formalization of the C6 claim at one input: with everything else equal, a
raising progress callback leaves the task's status and the session lists
exactly as a succeeding callback would. -/
def specC6CallbackHarmless (outcome : AgentOutcome) (tid : Nat)
    (t : SubAgentTaskModel) (sess : SessionContext) (msg : String) : Bool :=
  decide
    (executeTask ⟨true, some outcome, CallbackBehavior.raises msg⟩ tid t sess =
      executeTask ⟨true, some outcome, CallbackBehavior.ok⟩ tid t sess)

/-- C6 counterexample: for a succeeding agent on a fresh session, the raising
callback changes both the task's status (FAILED instead of COMPLETED) and the
session lists (an extra failed-list entry), refuting the claim. -/
theorem callback_failure_affects_accounting_cex :
    specC6CallbackHarmless (AgentOutcome.result successResult) 0
      (mkTask 0 PriorityEnum.normal) emptySession "boom" = false := by
  decide

/-- C6 amended: a raising progress callback is caught by the task-level
`except` handler, which overwrites the task's status to FAILED, records the
callback's message, and appends the task to the failed list once more — so
accounting *is* affected — and the handler's own keyword-argument logging
call then raises a `TypeError` that escapes `_execute_task`. -/
theorem callback_failure_double_accounting (r : AgentResult) (msg : String)
    (tid : Nat) (t : SubAgentTaskModel) (sess : SessionContext)
    (hc : sess.is_cancelled = false) :
    executeTask ⟨true, some (AgentOutcome.result r), CallbackBehavior.raises msg⟩
        tid t sess =
      ⟨{ t with
          status := StatusEnum.failed
          output_data := r.output_data
          error_message := some msg },
        (if r.status = AgentResultStatus.completed then
          { sess with
              completed_tasks := sess.completed_tasks ++ [tid]
              failed_tasks := sess.failed_tasks ++ [tid] }
        else
          { sess with failed_tasks := sess.failed_tasks ++ [tid] ++ [tid] }),
        some loggerKwargsTypeErrorMsg⟩ := by
  rcases hr : r.status <;>
    simp [executeTask, executeTaskTry, handleTaskException, hc, hr]

/-- Witness for C6 (amended) at a concrete input. -/
theorem callback_failure_double_accounting_witness :
    executeTask ⟨true, some (AgentOutcome.result successResult),
        CallbackBehavior.raises "boom"⟩ 0 (mkTask 0 PriorityEnum.normal)
        emptySession =
      ⟨{ mkTask 0 PriorityEnum.normal with
          status := StatusEnum.failed
          output_data := successResult.output_data
          error_message := some "boom" },
        (if successResult.status = AgentResultStatus.completed then
          { emptySession with
              completed_tasks := emptySession.completed_tasks ++ [0]
              failed_tasks := emptySession.failed_tasks ++ [0] }
        else
          { emptySession with
              failed_tasks := emptySession.failed_tasks ++ [0] ++ [0] }),
        some loggerKwargsTypeErrorMsg⟩ :=
  callback_failure_double_accounting successResult "boom" 0
    (mkTask 0 PriorityEnum.normal) emptySession rfl

/- ===================================================================
   C2 — batch accounting and the wait-loop completion condition.
   =================================================================== -/

theorem perm_snoc_middle (c f : List Nat) (tid : Nat) :
    ((c ++ [tid]) ++ f).Perm ((c ++ f) ++ [tid]) := by
  rw [List.append_assoc, List.append_assoc]
  exact List.Perm.append_left c List.perm_append_comm

/-- On a live, found session, with a non-raising callback and a dispatch
that returns a result (so the raising-logger handler is not entered), one
`_execute_task` adds exactly its task id to the union of the two session
lists, leaves the cancellation flag clear, and lets nothing escape. -/
theorem executeTask_accounts_once (env : TaskEnv) (tid : Nat)
    (t : SubAgentTaskModel) (sess : SessionContext)
    (hsf : env.sessionFound = true) (hcb : env.callback.doesRaise = false)
    (hdr : env.dispatchRaises = false)
    (hc : sess.is_cancelled = false) :
    ((executeTask env tid t sess).sess.completed_tasks ++
        (executeTask env tid t sess).sess.failed_tasks).Perm
      ((sess.completed_tasks ++ sess.failed_tasks) ++ [tid]) ∧
    (executeTask env tid t sess).sess.is_cancelled = false ∧
    (executeTask env tid t sess).escaped = none := by
  obtain ⟨sf, al, cb⟩ := env
  simp only at hsf
  subst hsf
  rcases al with _ | (r | msg)
  · simp [TaskEnv.dispatchRaises] at hdr
  · rcases hr : r.status <;> cases cb <;>
      simp [CallbackBehavior.doesRaise] at hcb <;>
      refine ⟨?_, ?_, ?_⟩ <;>
        simp only [executeTask, executeTaskTry, handleTaskException, hc, hr,
          reduceCtorEq, reduceIte, if_true, if_false] <;>
        first
          | rfl
          | exact hc
          | exact perm_snoc_middle _ _ _
          | (rw [List.append_assoc]; try exact List.Perm.refl _)
  · simp [TaskEnv.dispatchRaises] at hdr

/-- Batch version: processing a list of tasks on a live session, none of
which raises at dispatch or in its callback, appends exactly the batch's
ids to the union of the session lists, and the worker survives. -/
theorem runTasks_accounting :
    ∀ (items : List (SubAgentTaskModel × TaskEnv)) (sess : SessionContext),
      (∀ p ∈ items,
        p.2.sessionFound = true ∧ p.2.callback.doesRaise = false ∧
          p.2.dispatchRaises = false) →
      sess.is_cancelled = false →
      ((runTasks items sess).sess.completed_tasks ++
          (runTasks items sess).sess.failed_tasks).Perm
        ((sess.completed_tasks ++ sess.failed_tasks) ++
          items.map (fun p => p.1.task_id)) ∧
      (runTasks items sess).sess.is_cancelled = false ∧
      (runTasks items sess).workerAlive = true := by
  intro items
  induction items with
  | nil =>
      intro sess hgood hc
      simp only [runTasks, List.map_nil, List.append_nil]
      exact ⟨List.Perm.refl _, hc, trivial⟩
  | cons p rest ih =>
      intro sess hgood hc
      obtain ⟨t, env⟩ := p
      have h1 := hgood (t, env) (List.mem_cons_self _ _)
      obtain ⟨hperm1, hcanc1, hesc1⟩ :=
        executeTask_accounts_once env t.task_id t sess h1.1 h1.2.1 h1.2.2 hc
      obtain ⟨hperm2, hcanc2, halive2⟩ :=
        ih (executeTask env t.task_id t sess).sess
          (fun q hq => hgood q (List.mem_cons_of_mem _ hq)) hcanc1
      simp only [runTasks, hesc1, List.map_cons]
      refine ⟨?_, hcanc2, halive2⟩
      refine hperm2.trans ?_
      refine (hperm1.append_right _).trans ?_
      rw [List.append_assoc]
      exact List.Perm.refl _

/-- C2 counterexample scenario: a one-task batch whose progress callback
raises; the task is appended to both session lists. -/
def c2CexSession : SessionContext :=
  (runTasks [(mkTask 0 PriorityEnum.normal, callbackBoomEnv)] emptySession).sess

/-- C2 counterexample: the wait loop exits via the completion condition
(`completed_count >= total_tasks`, checked before timeout and cancellation),
yet completed + failed is 2 for a batch of size 1 — the task was appended to
both lists — so the returned list does not contain exactly the batch's
tasks. -/
theorem wait_loop_completion_overcount_cex :
    waitLoopCheck c2CexSession 1 0 300 = some LoopExitReason.completion ∧
    decide (c2CexSession.completed_tasks.length +
      c2CexSession.failed_tasks.length = 1) = false := by
  decide

/-- C2 amended: provided no progress callback raises and every dispatch
returns a result (registry hit, agent returns instead of raising — the
raising-handler paths would kill the worker), on a live found session the
whole batch gets processed, the completion condition then holds, and
completed + failed counts — and the returned `completed + failed` list
itself — cover the batch exactly. -/
theorem batch_accounting_no_callback_failure
    (items : List (SubAgentTaskModel × TaskEnv)) (elapsed timeout : Nat)
    (hgood : ∀ p ∈ items,
      p.2.sessionFound = true ∧ p.2.callback.doesRaise = false ∧
        p.2.dispatchRaises = false) :
    ((runTasks items emptySession).sess.completed_tasks.length +
        (runTasks items emptySession).sess.failed_tasks.length =
      items.length) ∧
    ((runTasks items emptySession).sess.completed_tasks ++
        (runTasks items emptySession).sess.failed_tasks).Perm
      (items.map (fun p => p.1.task_id)) ∧
    waitLoopCheck (runTasks items emptySession).sess items.length
      elapsed timeout = some LoopExitReason.completion ∧
    (runTasks items emptySession).workerAlive = true := by
  obtain ⟨hperm, _, halive⟩ := runTasks_accounting items emptySession hgood rfl
  simp only [emptySession, List.nil_append] at hperm
  have hlen : (runTasks items emptySession).sess.completed_tasks.length +
      (runTasks items emptySession).sess.failed_tasks.length =
        items.length := by
    have := hperm.length_eq
    simpa [List.length_append] using this
  refine ⟨hlen, hperm, ?_, halive⟩
  simp [waitLoopCheck, hlen]

/-- An agent result reporting failure (without raising). -/
def failedResult : AgentResult :=
  ⟨AgentResultStatus.failed, none, some "agent failed"⟩

/-- Concrete two-task batch for the C2 witness: one agent fails (reported as
a result), one succeeds. -/
def c2WitnessBatch : List (SubAgentTaskModel × TaskEnv) :=
  [(mkTask 0 PriorityEnum.normal,
     ⟨true, some (AgentOutcome.result failedResult), CallbackBehavior.absent⟩),
   (mkTask 1 PriorityEnum.high,
     ⟨true, some (AgentOutcome.result successResult), CallbackBehavior.ok⟩)]

/-- Witness for C2 (amended) on a concrete two-task batch. -/
theorem batch_accounting_no_callback_failure_witness :
    waitLoopCheck (runTasks c2WitnessBatch emptySession).sess
      c2WitnessBatch.length 0 300 = some LoopExitReason.completion :=
  (batch_accounting_no_callback_failure c2WitnessBatch 0 300 (by decide)).2.2.1

/- ===================================================================
   C8 — cancellation scenario.
   =================================================================== -/

/-- On a cancelled (but found) session, every dispatched task is
short-circuited to CANCELLED — an exception-free path, so the worker
survives — and nothing is appended to the session lists. -/
theorem runTasks_cancelled :
    ∀ (items : List (SubAgentTaskModel × TaskEnv)) (sess : SessionContext),
      sess.is_cancelled = true →
      (∀ p ∈ items, p.2.sessionFound = true) →
      runTasks items sess =
        ⟨items.map (fun p => { p.1 with status := StatusEnum.cancelled }),
          sess, true⟩ := by
  intro items
  induction items with
  | nil => intro sess hc hfound; simp [runTasks]
  | cons p rest ih =>
      intro sess hc hfound
      obtain ⟨t, env⟩ := p
      obtain ⟨sf, al, cb⟩ := env
      have h1 := hfound (t, ⟨sf, al, cb⟩) (List.mem_cons_self _ _)
      simp only at h1
      subst h1
      have hstep : executeTask ⟨true, al, cb⟩ t.task_id t sess =
          ⟨{ t with status := StatusEnum.cancelled }, sess, none⟩ := by
        simp [executeTask, executeTaskTry, hc]
      simp only [runTasks, hstep, List.map_cons]
      rw [ih sess hc (fun q hq => hfound q (List.mem_cons_of_mem _ hq))]

/-- The ten-task C8 batch, every dispatch using the module's committed stub
lookup (`get_agent` returns `None` for every name). -/
def c8Items : List (SubAgentTaskModel × TaskEnv) :=
  (List.range 10).map (fun i => (mkTask i PriorityEnum.normal, stubLookupEnv))

/-- C8, first interleaving: the cancellation is set before the single worker
dequeues anything, so every dispatch takes the (exception-free) cancel
short-circuit. -/
def c8RunCancelFirst : WorkerRunResult :=
  runTasks c8Items (cancelSession emptySession)

/-- C8, second interleaving: the worker dequeues task 0 before the
cancellation is observed; the stub lookup sends it to the except handler
whose raising logger kills the worker, and `cancel_session` then sets the
flag on the final session. -/
def c8RunDispatchFirst : WorkerRunResult :=
  let r := runTasks c8Items emptySession
  ⟨r.tasks, cancelSession r.sess, r.workerAlive⟩

/-- C8 counterexample: in the dispatch-first interleaving the claim fails on
every count: the nine undispatched tasks are PENDING, not CANCELLED (the
worker died, all ten tasks have a status other than CANCELLED), and they do
not appear in the returned `completed + failed` list. -/
theorem cancelled_tasks_not_in_result_cex :
    ((c8RunDispatchFirst.tasks.drop 1).all
        (fun t => decide (t.status = StatusEnum.cancelled))) = false ∧
    c8RunDispatchFirst.tasks.countP
        (fun t => !(decide (t.status = StatusEnum.cancelled))) = 10 ∧
    (((List.range 9).map (fun i => i + 1)).all
        (fun tid => decide (tid ∈ c8RunDispatchFirst.sess.completed_tasks ++
          c8RunDispatchFirst.sess.failed_tasks))) = false := by
  decide

/-- C8 amended, on the committed code: if the cancellation is observed
before any dispatch, all ten tasks are short-circuited to CANCELLED, the
worker survives, and awaiting completion returns the empty list (cancelled
tasks are never appended to the session lists).  If task 0 is dispatched
first, the stub lookup marks it FAILED and the handler's raising logger
kills the worker, so the other nine stay PENDING forever and awaiting
completion (via the cancellation exit) returns `[0]` only. -/
theorem cancel_scenario_committed :
    (c8RunCancelFirst.tasks.all
        (fun t => decide (t.status = StatusEnum.cancelled)) = true ∧
      c8RunCancelFirst.tasks.length = 10 ∧
      c8RunCancelFirst.workerAlive = true ∧
      awaitBatchResult c8RunCancelFirst.sess 10 1 300 =
        some (Except.ok [])) ∧
    (c8RunDispatchFirst.tasks.head?.map (fun t => t.status) =
        some StatusEnum.failed ∧
      (c8RunDispatchFirst.tasks.drop 1).all
        (fun t => decide (t.status = StatusEnum.pending)) = true ∧
      c8RunDispatchFirst.tasks.length = 10 ∧
      c8RunDispatchFirst.workerAlive = false ∧
      awaitBatchResult c8RunDispatchFirst.sess 10 1 300 =
        some (Except.ok [0])) := by
  exact ⟨⟨rfl, rfl, rfl, rfl⟩, ⟨rfl, rfl, rfl, rfl, rfl⟩⟩

/- ===================================================================
   C9 — timeout behaviour.
   =================================================================== -/

/-- C9 (code bug): when the wait loop hits the timeout branch, the committed
code does not return the partial results: line 373's
`logger.warn("並列実行タイムアウト", session_id=...)` raises `TypeError` on
the stdlib logger before the `break`, and the `except` handler's own
keyword-argument `logger.error` (line 409) raises again while handling it —
so `execute_agents_parallel` propagates a `TypeError` to its caller instead
of returning `completed + failed`. -/
theorem timeout_raises_type_error (sess : SessionContext)
    (totalTasks elapsed timeout : Nat)
    (h : waitLoopCheck sess totalTasks elapsed timeout =
      some LoopExitReason.timeoutRaise) :
    awaitBatchResult sess totalTasks elapsed timeout =
      some (Except.error loggerKwargsTypeErrorMsg) ∧
    awaitBatchResult sess totalTasks elapsed timeout ≠
      some (Except.ok (sess.completed_tasks ++ sess.failed_tasks)) := by
  rw [awaitBatchResult, h]
  exact ⟨rfl, by simp⟩

/-- Witness for C9: a batch of 2 with one failed task so far, elapsed 5 over
a timeout of 3. -/
theorem timeout_raises_type_error_witness :
    awaitBatchResult ⟨[], [0], false⟩ 2 5 3 =
      some (Except.error loggerKwargsTypeErrorMsg) :=
  (timeout_raises_type_error ⟨[], [0], false⟩ 2 5 3 (by decide)).1

/- ===================================================================
   C10 — empty batch divides by zero.
   =================================================================== -/

/-- C10: with an empty task list the wait loop exits immediately via the
completion check (`0 >= 0`), and the success-rate computation — evaluated as
an argument before the disabled-level `logger.info` call — then divides the
completed count by the zero batch size, so `execute_agents_parallel` fails
with a ZeroDivisionError instead of returning a (empty) result list. -/
theorem empty_batch_division_error :
    runTasks [] emptySession = ⟨[], emptySession, true⟩ ∧
    waitLoopCheck emptySession 0 0 300 = some LoopExitReason.completion ∧
    finishBatch emptySession 0 = Except.error "ZeroDivisionError" ∧
    awaitBatchResult emptySession 0 0 300 =
      some (Except.error "ZeroDivisionError") := by
  refine ⟨rfl, rfl, rfl, rfl⟩

end ClaudeFlow
